import Mathlib

/-!
# process_monitor.c : a shallow embedding

The kernel module `src/process_monitor.c` registers one kprobe on `do_exit`,
counts every invocation of its pre-handler in an `atomic_t`, logs two lines per
terminating process, and reports the counter when it is unloaded.

The embedding keeps the C names.  The module's globals (`kp_exit`, `exit_count`),
the host's view of the registration, the `current` task, the register context and the
kernel log are fields of one explicit state record `kstate`.  Kernel services the
module calls but does not define (`printk`, `register_kprobe`, `unregister_kprobe`,
`UTS_RELEASE`, the rendering of `%p`) are supplied by a `host` record.
-/

namespace ProcessMonitor

/-! ## Machine integers -/

/-- Two's-complement reduction of an integer to the range of a 32-bit `int`. -/
def wrap32 (v : Int) : Int := (v + 2147483648) % 4294967296 - 2147483648

/-- Range of a C `int`. -/
def in_int_range (v : Int) : Prop := -2147483648 ≤ v ∧ v ≤ 2147483647

instance (v : Int) : Decidable (in_int_range v) := by
  unfold in_int_range; infer_instance

/-- `atomic_inc` on an `atomic_t` (a 32-bit `int` counter): a wrapping increment. -/
def atomic_inc (v : Int) : Int := wrap32 (v + 1)

/-- `atomic_read` on an `atomic_t`. -/
def atomic_read (v : Int) : Int := v

/-! ## Kernel log -/

/-- Log levels used by the module: `pr_err` and `pr_info`. -/
inductive loglevel where
  | KERN_ERR
  | KERN_INFO
  deriving DecidableEq, Repr

/-- One record of the kernel log: one `printk` call. -/
structure log_record where
  level : loglevel
  text : String
  deriving DecidableEq, Repr

/-- The kernel log, oldest record first. -/
abbrev klog := List log_record

/-! ## Process descriptors, register context, kprobe -/

/-- The fields of `struct task_struct` the module reads.  `parent` is a pointer:
`none` is the null pointer. -/
inductive task_struct where
  | mk (pid : Int) (comm : String) (parent : Option task_struct)
      (utime : Nat) (stime : Nat) : task_struct

namespace task_struct

/-- Field `pid` (a `pid_t`). -/
def pid : task_struct → Int
  | mk p _ _ _ _ => p

/-- Field `comm`. -/
def comm : task_struct → String
  | mk _ c _ _ _ => c

/-- Field `parent`. -/
def parent : task_struct → Option task_struct
  | mk _ _ q _ _ => q

/-- Field `utime` (a `u64`). -/
def utime : task_struct → Nat
  | mk _ _ _ u _ => u

/-- Field `stime` (a `u64`). -/
def stime : task_struct → Nat
  | mk _ _ _ _ t => t

end task_struct

/-- The register context `struct pt_regs`, an array of machine words the handler
never looks at. -/
structure pt_regs where
  words : List Nat
  deriving DecidableEq, Repr

/-- The functions of this module that can be stored in `kprobe.pre_handler`. -/
inductive kprobe_pre_handler_t where
  | handler_pre_exit
  deriving DecidableEq, Repr

/-- The fields of `struct kprobe` the module uses.  `addr` and `pre_handler` are
pointers: `none` is the null pointer. -/
structure kprobe where
  symbol_name : String
  addr : Option Nat
  pre_handler : Option kprobe_pre_handler_t
  deriving DecidableEq, Repr

/-! ## The host -/

/-- Modelled from the spec: the host's answer to a request to resolve and
instrument a symbol, either the resolved address or a status code. -/
inductive attach_answer where
  | resolved (addr : Nat)
  | refused (code : Int)
  deriving DecidableEq, Repr

/-- Kernel services the module uses but does not define.
`printk` stores (or drops) one record; `UTS_RELEASE` is the release string;
`fmt_p` renders a `%p` argument; `resolve` answers a registration request for a
symbol; `conflict` is the status with which a second registration of a live
kprobe is refused. -/
structure host where
  printk : klog → log_record → klog
  UTS_RELEASE : String
  fmt_p : Option Nat → String
  resolve : String → attach_answer
  conflict : Int

/-- A log sink that stores every record. -/
def printk_store (l : klog) (r : log_record) : klog := l ++ [r]

/-- A log sink that drops every record. -/
def printk_drop (l : klog) (_r : log_record) : klog := l

/-- The host stores every record it is handed. -/
def lossless (h : host) : Prop := ∀ l r, h.printk l r = l ++ [r]

/-! ## Machine state -/

/-- Explicit state: the `current` task and the register context of the running
invocation, the module's globals `kp_exit` and `exit_count`, the host's side of the
registration (`attached`), and the kernel log. -/
structure kstate where
  current : task_struct
  regs : pt_regs
  kp_exit : kprobe
  attached : Bool
  exit_count : Int
  log : klog

/-- Result of running a piece of kernel code: it returned a status, or it faulted
on a null pointer dereference. -/
inductive outcome where
  | returned (status : Int)
  | oops
  deriving DecidableEq, Repr

/-- State right after the module image is loaded: the static initialisers of
`kp_exit` (lines 15-17) and `exit_count` (line 20), nothing registered, empty log. -/
def module_image (cur : task_struct) (regs : pt_regs) : kstate :=
  { current := cur
    regs := regs
    kp_exit := { symbol_name := "do_exit", addr := none, pre_handler := none }
    attached := false
    exit_count := 0
    log := [] }

/-! ## Formatting -/

/-- Rendering of a `%d` argument. -/
def fmt_d (v : Int) : String := toString v

/-- Rendering of a `%llu` argument. -/
def fmt_llu (v : Nat) : String := toString v

/-- Rendering of a `%s` argument. -/
def fmt_s (v : String) : String := v

/-- The separator line. -/
def banner : String := "PROCESS_MONITOR: ========================================\n"

/-- Text of the first line of an observation (line 31). -/
def exiting_line (pid : Int) (comm : String) (ppid : Int) : String :=
  "PROCESS_MONITOR: Process exiting - PID: " ++ fmt_d pid ++ ", Name: " ++ fmt_s comm
    ++ ", Parent PID: " ++ fmt_d ppid ++ "\n"

/-- Text of the second line of an observation (line 35). -/
def cputime_line (utime stime : Nat) : String :=
  "PROCESS_MONITOR:   User time: " ++ fmt_llu utime ++ " ns, System time: "
    ++ fmt_llu stime ++ " ns\n"

/-- Text of the registration failure report (line 56). -/
def failed_line (ret : Int) : String :=
  "PROCESS_MONITOR: Failed to register exit kprobe: " ++ fmt_d ret ++ "\n"

/-- Text of the final report (line 77). -/
def total_line (v : Int) : String :=
  "PROCESS_MONITOR: Total process exits monitored: " ++ fmt_d v ++ "\n"

/-- The call `pr_info(text)`. -/
def pr_info (h : host) (s : kstate) (text : String) : kstate :=
  { s with log := h.printk s.log { level := loglevel.KERN_INFO, text := text } }

/-- The call `pr_err(text)`. -/
def pr_err (h : host) (s : kstate) (text : String) : kstate :=
  { s with log := h.printk s.log { level := loglevel.KERN_ERR, text := text } }

/-! ## The module's functions -/

/-- `handler_pre_exit` (lines 25-39).  `p` and `regs` are the two pointer
arguments; neither is used.  The arguments of the first `pr_info` are evaluated
before the call, so a null `task->parent` faults after the increment and before
anything is logged. -/
def handler_pre_exit (h : host) (_p : kprobe) (_regs : pt_regs) (s : kstate) :
    kstate × outcome :=
  let task := s.current
  let s1 := { s with exit_count := atomic_inc s.exit_count }
  match task.parent with
  | none => (s1, outcome.oops)
  | some parent =>
    let s2 := pr_info h s1 (exiting_line task.pid task.comm parent.pid)
    let s3 := pr_info h s2 (cputime_line task.utime task.stime)
    (s3, outcome.returned 0)

/-- Modelled from the spec: the host capability `register(name, callback)`.  A
registration that is already live is refused with the host's status code and
left as it is; otherwise the host resolves the symbol, and either refuses with a
status code, changing nothing, or records the resolved address in the kprobe and
arms it, returning 0. -/
def register_kprobe (h : host) (s : kstate) : Int × kstate :=
  if s.attached then (h.conflict, s)
  else
    match h.resolve s.kp_exit.symbol_name with
    | attach_answer.refused code => (code, s)
    | attach_answer.resolved a =>
      (0, { s with kp_exit := { s.kp_exit with addr := some a }, attached := true })

/-- Modelled from the spec: the host capability `unregister(handle)`; once it
returns no new invocation of the callback begins. -/
def unregister_kprobe (s : kstate) : kstate := { s with attached := false }

/-- `process_monitor_init` (lines 44-65). -/
def process_monitor_init (h : host) (s : kstate) : kstate × Int :=
  let s1 := pr_info h s banner
  let s2 := pr_info h s1 "PROCESS_MONITOR: Module loading...\n"
  let s3 := pr_info h s2 ("PROCESS_MONITOR: Kernel version: " ++ fmt_s h.UTS_RELEASE ++ "\n")
  let s4 := { s3 with kp_exit :=
    { s3.kp_exit with pre_handler := some kprobe_pre_handler_t.handler_pre_exit } }
  let r := register_kprobe h s4
  let ret := r.1
  let s5 := r.2
  if ret < 0 then
    (pr_err h s5 (failed_line ret), ret)
  else
    let s6 := pr_info h s5
      ("PROCESS_MONITOR: Registered exit kprobe at " ++ h.fmt_p s5.kp_exit.addr ++ "\n")
    let s7 := pr_info h s6 "PROCESS_MONITOR: Module loaded successfully\n"
    let s8 := pr_info h s7 "PROCESS_MONITOR: Monitoring process termination events\n"
    let s9 := pr_info h s8 banner
    (s9, 0)

/-- `process_monitor_exit` (lines 70-80). -/
def process_monitor_exit (h : host) (s : kstate) : kstate :=
  let s1 := unregister_kprobe s
  let s2 := pr_info h s1 banner
  let s3 := pr_info h s2 "PROCESS_MONITOR: Module unloaded\n"
  let s4 := pr_info h s3 (total_line (atomic_read s3.exit_count))
  pr_info h s4 banner

/-! ## Sequences of invocations -/

/-- One termination: the task and the register context the host hands over. -/
abbrev termination := task_struct × pt_regs

/-- The handler is invoked once for each termination of the list, in order, each
time with that task as `current`.  A fault ends the run. -/
def invoke_handler : host → List termination → kstate → kstate × outcome
  | _, [], s => (s, outcome.returned 0)
  | h, ev :: evs, s =>
    match handler_pre_exit h s.kp_exit ev.2 { s with current := ev.1, regs := ev.2 } with
    | (s1, outcome.returned _) => invoke_handler h evs s1
    | (s1, outcome.oops) => (s1, outcome.oops)

/-- Modelled from the spec: the host's entry into `do_exit`.  The installed
pre-execution callback runs if and only if the registration is live. -/
def do_exit_entry (h : host) (ev : termination) (s : kstate) : kstate × outcome :=
  let s1 := { s with current := ev.1, regs := ev.2 }
  if s1.attached then
    match s1.kp_exit.pre_handler with
    | some kprobe_pre_handler_t.handler_pre_exit => handler_pre_exit h s1.kp_exit ev.2 s1
    | none => (s1, outcome.returned 0)
  else (s1, outcome.returned 0)

/-- The host runs a list of terminations in order through `do_exit_entry`.  A
fault ends the run. -/
def terminations : host → List termination → kstate → kstate × outcome
  | _, [], s => (s, outcome.returned 0)
  | h, ev :: evs, s =>
    match do_exit_entry h ev s with
    | (s1, outcome.returned _) => terminations h evs s1
    | (s1, outcome.oops) => (s1, outcome.oops)

/-- Every task of the list has a parent descriptor. -/
def parents_present (evs : List termination) : Prop :=
  ∀ ev ∈ evs, ev.1.parent ≠ none

/-- A host that stores every log record and resolves every symbol to `addr`. -/
def plain_host (addr : Nat) : host :=
  { printk := printk_store
    UTS_RELEASE := "6.1.0"
    fmt_p := fun _ => "(ptrval)"
    resolve := fun _ => attach_answer.resolved addr
    conflict := -22 }

/-- A host that stores every log record and refuses every registration with `code`. -/
def refusing_host (code : Int) : host :=
  { printk := printk_store
    UTS_RELEASE := "6.1.0"
    fmt_p := fun _ => "(ptrval)"
    resolve := fun _ => attach_answer.refused code
    conflict := -22 }

/-- The task `init`, with no parent descriptor. -/
def orphan : task_struct := task_struct.mk 1 "init" none 0 0

/-- The descriptor of the scenario: pid 100, name "worker", parent pid 1,
utime 5000, stime 200. -/
def worker : task_struct := task_struct.mk 100 "worker" (some orphan) 5000 200

/-- An empty register context. -/
def no_regs : pt_regs := { words := [] }

/-- A host that drops every log record and resolves every symbol to `addr`. -/
def deaf_host (addr : Nat) : host :=
  { printk := printk_drop
    UTS_RELEASE := "6.1.0"
    fmt_p := fun _ => "(ptrval)"
    resolve := fun _ => attach_answer.resolved addr
    conflict := -22 }

/-- The module image with the descriptor `worker` current and the counter at the
largest value of an `int`. -/
def saturated : kstate := { module_image worker no_regs with exit_count := 2147483647 }

/-- The count of invocations reduced modulo 2^32 and read as a two's-complement
signed 32-bit integer. -/
def signed32_of_count (n : Nat) : Int :=
  if (n : Int) % 4294967296 < 2147483648 then (n : Int) % 4294967296
  else (n : Int) % 4294967296 - 4294967296

/-- The system of the scenario: the module loaded on a host that stores every
record, `worker` about to terminate. -/
def active_image : kstate := (process_monitor_init (plain_host 7) (module_image worker no_regs)).1

/-- The termination of the scenario. -/
def worker_exit : termination := (worker, no_regs)

/-! ## Concurrent invocations -/

/-- Program points of one invocation of `handler_pre_exit`: before the `atomic_inc`
of line 29, before the `pr_info` of line 31, before the `pr_info` of line 35, after
`return 0`, and stopped by a fault. -/
inductive handler_pc where
  | at_inc
  | at_exiting
  | at_cputime
  | returned
  | faulted
  deriving DecidableEq, Repr

/-- One invocation in flight on its own execution context: the task that is
`current` there and the program point it has reached. -/
structure invocation where
  task : task_struct
  pc : handler_pc

/-- Modelled from the spec: the granularity at which the host interleaves
concurrent invocations.  The next indivisible action of one invocation of
`handler_pre_exit` on the shared state is the `atomic_inc` (an indivisible
read-modify-write), or one `printk` call (the arguments of the first are read just
before it), or nothing once the invocation has returned or faulted. -/
def invocation_step (h : host) (t : invocation) (s : kstate) : invocation × kstate :=
  match t.pc with
  | handler_pc.at_inc =>
    ({ t with pc := handler_pc.at_exiting },
      { s with exit_count := atomic_inc s.exit_count })
  | handler_pc.at_exiting =>
    match t.task.parent with
    | none => ({ t with pc := handler_pc.faulted }, s)
    | some parent =>
      ({ t with pc := handler_pc.at_cputime },
        pr_info h s (exiting_line t.task.pid t.task.comm parent.pid))
  | handler_pc.at_cputime =>
    ({ t with pc := handler_pc.returned },
      pr_info h s (cputime_line t.task.utime t.task.stime))
  | handler_pc.returned => (t, s)
  | handler_pc.faulted => (t, s)

/-- The invocation at position `i` performs its next action; a position past the
end does nothing. -/
def step_at (h : host) : Nat → List invocation → kstate → List invocation × kstate
  | _, [], s => ([], s)
  | 0, t :: ts, s => ((invocation_step h t s).1 :: ts, (invocation_step h t s).2)
  | i + 1, t :: ts, s => (t :: (step_at h i ts s).1, (step_at h i ts s).2)

/-- Modelled from the spec: concurrent terminations interleave arbitrarily.  An
interleaving is the list of positions that act, in order. -/
def run_schedule (h : host) : List Nat → List invocation × kstate → List invocation × kstate
  | [], c => c
  | i :: sched, c => run_schedule h sched (step_at h i c.1 c.2)

/-- The invocations that have just entered the handler, one per task. -/
def started (tasks : List task_struct) : List invocation :=
  tasks.map (fun t => { task := t, pc := handler_pc.at_inc })

/-- Has the invocation performed its increment. -/
def past_inc (t : invocation) : Bool :=
  match t.pc with
  | handler_pc.at_inc => false
  | _ => true

/-- Every invocation of the list has returned. -/
def all_returned (ts : List invocation) : Prop := ∀ t ∈ ts, t.pc = handler_pc.returned

instance (ts : List invocation) : Decidable (all_returned ts) := by
  unfold all_returned; infer_instance

/-- The interleaving in which the invocations run one after the other. -/
def one_by_one : Nat → List Nat
  | 0 => []
  | n + 1 => [0, 0, 0] ++ (one_by_one n).map (fun i => i + 1)

/-- The attachment state `Active`: the host holds a live registration whose
callback is `handler_pre_exit`. -/
def Active (s : kstate) : Prop :=
  s.attached = true ∧ s.kp_exit.pre_handler = some kprobe_pre_handler_t.handler_pre_exit

/-- The attachment state `Unregistered`. -/
def Unregistered (s : kstate) : Prop := s.attached = false

/-- A log record at level `KERN_INFO`. -/
def info (text : String) : log_record := { level := loglevel.KERN_INFO, text := text }

/-- A log record at level `KERN_ERR`. -/
def err (text : String) : log_record := { level := loglevel.KERN_ERR, text := text }

/-! ## Arithmetic of the counter -/

lemma wrap32_of_range (v : Int) (hv : in_int_range v) : wrap32 v = v := by
  unfold in_int_range at hv
  unfold wrap32
  omega

lemma wrap32_range (v : Int) : in_int_range (wrap32 v) := by
  unfold in_int_range wrap32
  omega

lemma wrap32_add_left (a b : Int) : wrap32 (wrap32 a + b) = wrap32 (a + b) := by
  unfold wrap32
  omega

lemma wrap32_signed (v : Int) :
    wrap32 v = if v % 4294967296 < 2147483648 then v % 4294967296
      else v % 4294967296 - 4294967296 := by
  unfold wrap32
  split <;> omega

lemma atomic_inc_succ (c : Int) (hc : in_int_range c) (hmax : c ≠ 2147483647) :
    atomic_inc c = c + 1 := by
  unfold in_int_range at hc
  unfold atomic_inc wrap32
  omega

lemma atomic_inc_range (c : Int) : in_int_range (atomic_inc c) := wrap32_range _

/-! ## One invocation of the handler -/

lemma handler_exit_count (h : host) (p : kprobe) (regs : pt_regs) (s : kstate) :
    (handler_pre_exit h p regs s).1.exit_count = atomic_inc s.exit_count := by
  cases hp : s.current.parent <;> simp [handler_pre_exit, hp, pr_info]

lemma handler_returns (h : host) (p : kprobe) (regs : pt_regs) (s : kstate)
    (par : task_struct) (hp : s.current.parent = some par) :
    (handler_pre_exit h p regs s).2 = outcome.returned 0 := by
  unfold handler_pre_exit
  simp [hp]

lemma handler_oops (h : host) (p : kprobe) (regs : pt_regs) (s : kstate)
    (hp : s.current.parent = none) :
    handler_pre_exit h p regs s
      = ({ s with exit_count := atomic_inc s.exit_count }, outcome.oops) := by
  unfold handler_pre_exit
  simp [hp]

lemma handler_frame (h : host) (p : kprobe) (regs : pt_regs) (s : kstate) :
    (handler_pre_exit h p regs s).1.current = s.current
      ∧ (handler_pre_exit h p regs s).1.regs = s.regs
      ∧ (handler_pre_exit h p regs s).1.kp_exit = s.kp_exit
      ∧ (handler_pre_exit h p regs s).1.attached = s.attached := by
  cases hp : s.current.parent <;> simp [handler_pre_exit, hp, pr_info]

lemma handler_log (h : host) (p : kprobe) (regs : pt_regs) (s : kstate)
    (par : task_struct) (hp : s.current.parent = some par) :
    (handler_pre_exit h p regs s).1.log
      = h.printk (h.printk s.log (info (exiting_line s.current.pid s.current.comm par.pid)))
          (info (cputime_line s.current.utime s.current.stime)) := by
  unfold handler_pre_exit
  simp [hp, pr_info, info]

/-! ## Sequences of invocations -/

lemma invoke_handler_cons (h : host) (ev : termination) (evs : List termination)
    (s : kstate) (hp : ev.1.parent ≠ none) :
    invoke_handler h (ev :: evs) s
      = invoke_handler h evs
          (handler_pre_exit h s.kp_exit ev.2 { s with current := ev.1, regs := ev.2 }).1 := by
  obtain ⟨par, hpar⟩ := Option.ne_none_iff_exists'.mp hp
  have hret := handler_returns h s.kp_exit ev.2 { s with current := ev.1, regs := ev.2 } par hpar
  rw [invoke_handler]
  rcases hx : handler_pre_exit h s.kp_exit ev.2 { s with current := ev.1, regs := ev.2 }
    with ⟨s1, o⟩
  rw [hx] at hret
  simp only at hret
  subst hret
  rfl

lemma invoke_handler_spec (h : host) :
    ∀ (evs : List termination) (s : kstate), parents_present evs →
      in_int_range s.exit_count →
      (invoke_handler h evs s).2 = outcome.returned 0
        ∧ (invoke_handler h evs s).1.exit_count = wrap32 (s.exit_count + evs.length)
        ∧ (invoke_handler h evs s).1.kp_exit = s.kp_exit
        ∧ (invoke_handler h evs s).1.attached = s.attached := by
  intro evs
  induction evs with
  | nil =>
    intro s _ hr
    simp [invoke_handler, wrap32_of_range _ hr]
  | cons ev evs ih =>
    intro s hp hr
    have hev : ev.1.parent ≠ none := hp ev (List.mem_cons_self _ _)
    have hrest : parents_present evs := fun e he => hp e (List.mem_cons_of_mem _ he)
    rw [invoke_handler_cons h ev evs s hev]
    have hc := handler_exit_count h s.kp_exit ev.2 { s with current := ev.1, regs := ev.2 }
    have hf := handler_frame h s.kp_exit ev.2 { s with current := ev.1, regs := ev.2 }
    have hr1 : in_int_range
        (handler_pre_exit h s.kp_exit ev.2
          { s with current := ev.1, regs := ev.2 }).1.exit_count := by
      rw [hc]; exact atomic_inc_range _
    obtain ⟨h1, h2, h3, h4⟩ := ih _ hrest hr1
    refine ⟨h1, ?_, ?_, ?_⟩
    · rw [h2, hc]
      simp only [atomic_inc, List.length_cons, Nat.cast_add, Nat.cast_one]
      rw [wrap32_add_left]
      congr 1
      ring
    · rw [h3]; exact hf.2.2.1
    · rw [h4]; exact hf.2.2.2

lemma do_exit_entry_unregistered (h : host) (ev : termination) (s : kstate)
    (hs : s.attached = false) :
    do_exit_entry h ev s = ({ s with current := ev.1, regs := ev.2 }, outcome.returned 0) := by
  simp [do_exit_entry, hs]

lemma terminations_unregistered (h : host) :
    ∀ (evs : List termination) (s : kstate), s.attached = false →
      (terminations h evs s).2 = outcome.returned 0
        ∧ (terminations h evs s).1.log = s.log
        ∧ (terminations h evs s).1.exit_count = s.exit_count
        ∧ (terminations h evs s).1.kp_exit = s.kp_exit
        ∧ (terminations h evs s).1.attached = false := by
  intro evs
  induction evs with
  | nil =>
    intro s hs
    simp [terminations, hs]
  | cons ev evs ih =>
    intro s hs
    rw [terminations, do_exit_entry_unregistered h ev s hs]
    exact ih { s with current := ev.1, regs := ev.2 } hs

lemma do_exit_entry_active (h : host) (ev : termination) (s : kstate) (hs : Active s) :
    do_exit_entry h ev s
      = handler_pre_exit h s.kp_exit ev.2 { s with current := ev.1, regs := ev.2 } := by
  obtain ⟨ha, hh⟩ := hs
  simp [do_exit_entry, ha, hh]

/-! ## Load and unload -/

lemma init_refused (h : host) (s : kstate) (code : Int) (hs : s.attached = false)
    (hres : h.resolve s.kp_exit.symbol_name = attach_answer.refused code) (hneg : code < 0) :
    process_monitor_init h s =
      ({ s with
          kp_exit := { s.kp_exit with
            pre_handler := some kprobe_pre_handler_t.handler_pre_exit }
          log := h.printk
            (h.printk (h.printk (h.printk s.log (info banner))
              (info "PROCESS_MONITOR: Module loading...\n"))
              (info ("PROCESS_MONITOR: Kernel version: " ++ fmt_s h.UTS_RELEASE ++ "\n")))
            (err (failed_line code)) }, code) := by
  simp [process_monitor_init, register_kprobe, pr_info, pr_err, hs, hres, hneg, info, err]

lemma init_conflict (h : host) (s : kstate) (hs : s.attached = true)
    (hneg : h.conflict < 0) :
    process_monitor_init h s =
      ({ s with
          kp_exit := { s.kp_exit with
            pre_handler := some kprobe_pre_handler_t.handler_pre_exit }
          log := h.printk
            (h.printk (h.printk (h.printk s.log (info banner))
              (info "PROCESS_MONITOR: Module loading...\n"))
              (info ("PROCESS_MONITOR: Kernel version: " ++ fmt_s h.UTS_RELEASE ++ "\n")))
            (err (failed_line h.conflict)) }, h.conflict) := by
  simp [process_monitor_init, register_kprobe, pr_info, pr_err, hs, hneg, info, err]

lemma init_resolved (h : host) (s : kstate) (a : Nat) (hs : s.attached = false)
    (hres : h.resolve s.kp_exit.symbol_name = attach_answer.resolved a) :
    (process_monitor_init h s).2 = 0
      ∧ (process_monitor_init h s).1.attached = true
      ∧ (process_monitor_init h s).1.kp_exit
          = { s.kp_exit with
              addr := some a
              pre_handler := some kprobe_pre_handler_t.handler_pre_exit }
      ∧ (process_monitor_init h s).1.exit_count = s.exit_count
      ∧ (process_monitor_init h s).1.current = s.current
      ∧ (process_monitor_init h s).1.regs = s.regs := by
  simp [process_monitor_init, register_kprobe, pr_info, hs, hres]

lemma exit_state (h : host) (s : kstate) :
    process_monitor_exit h s =
      { s with
        attached := false
        log := h.printk
          (h.printk (h.printk (h.printk s.log (info banner))
            (info "PROCESS_MONITOR: Module unloaded\n"))
            (info (total_line s.exit_count)))
          (info banner) } := by
  simp [process_monitor_exit, unregister_kprobe, pr_info, atomic_read, info]

lemma exit_log_lossless (h : host) (hl : lossless h) (s : kstate) :
    (process_monitor_exit h s).log =
      s.log ++ [info banner, info "PROCESS_MONITOR: Module unloaded\n",
        info (total_line s.exit_count), info banner] := by
  rw [exit_state]
  simp [hl _ _]

lemma lossless_plain_host (addr : Nat) : lossless (plain_host addr) := by
  intro l r
  rfl

lemma lossless_refusing_host (code : Int) : lossless (refusing_host code) := by
  intro l r
  rfl

lemma terminations_active (h : host) :
    ∀ (evs : List termination) (s : kstate), Active s →
      terminations h evs s = invoke_handler h evs s := by
  intro evs
  induction evs with
  | nil => intro s _; rfl
  | cons ev evs ih =>
    intro s hs
    rw [terminations, invoke_handler, do_exit_entry_active h ev s hs]
    have hf := handler_frame h s.kp_exit ev.2 { s with current := ev.1, regs := ev.2 }
    rcases hx : handler_pre_exit h s.kp_exit ev.2 { s with current := ev.1, regs := ev.2 }
      with ⟨s1, o⟩
    rw [hx] at hf
    cases o with
    | oops => rfl
    | returned st =>
      apply ih
      exact ⟨by rw [hf.2.2.2]; exact hs.1, by rw [hf.2.2.1]; exact hs.2⟩

lemma wrap32_count (n : Nat) : wrap32 (0 + (n : Int)) = signed32_of_count n := by
  unfold signed32_of_count
  rw [wrap32_signed]
  simp

lemma toString_natCast (n : Nat) : toString ((n : Nat) : Int) = Nat.repr n := rfl

lemma total_line_text (v : Int) :
    total_line v = "PROCESS_MONITOR: Total process exits monitored: " ++ toString v ++ "\n" := by
  simp only [total_line, fmt_d]

lemma total_line_nat (n : Nat) :
    total_line (n : Int)
      = "PROCESS_MONITOR: Total process exits monitored: " ++ Nat.repr n ++ "\n" := by
  rw [total_line_text, toString_natCast]

lemma signed32_of_count_eq_iff (n : Nat) :
    signed32_of_count n = (n : Int) ↔ n < 2147483648 := by
  unfold signed32_of_count
  split <;> omega

lemma parents_present_replicate (n : Nat) (ev : termination) (hev : ev.1.parent ≠ none) :
    parents_present (List.replicate n ev) := by
  intro e he
  rw [List.eq_of_mem_replicate he]
  exact hev

lemma invoke_handler_count (h : host) (evs : List termination) (s : kstate)
    (hp : parents_present evs) (h0 : s.exit_count = 0) :
    (invoke_handler h evs s).1.exit_count = signed32_of_count evs.length := by
  have hr : in_int_range s.exit_count := by rw [h0]; decide
  rw [(invoke_handler_spec h evs s hp hr).2.1, h0, wrap32_count]

/-! ## Interleavings -/

lemma run_schedule_alone (h : host) (p : kprobe) (regs : pt_regs) (s : kstate) :
    (run_schedule h [0, 0, 0] ([{ task := s.current, pc := handler_pc.at_inc }], s)).2
        = (handler_pre_exit h p regs s).1
      ∧ ((run_schedule h [0, 0, 0]
            ([{ task := s.current, pc := handler_pc.at_inc }], s)).1.map (fun t => t.pc)
          = [handler_pc.returned] ↔ (handler_pre_exit h p regs s).2 = outcome.returned 0) := by
  cases hp : s.current.parent <;>
    simp [run_schedule, step_at, invocation_step, handler_pre_exit, hp, pr_info]

lemma step_at_effect (h : host) :
    ∀ (ts : List invocation) (i : Nat) (s : kstate),
      ((step_at h i ts s).2.exit_count = s.exit_count
          ∧ (step_at h i ts s).1.countP past_inc = ts.countP past_inc)
        ∨ ((step_at h i ts s).2.exit_count = atomic_inc s.exit_count
          ∧ (step_at h i ts s).1.countP past_inc = ts.countP past_inc + 1) := by
  intro ts
  induction ts with
  | nil => intro i s; left; cases i <;> simp [step_at]
  | cons t ts ih =>
    intro i s
    cases i with
    | zero =>
      obtain ⟨task, pc⟩ := t
      cases pc with
      | at_inc =>
        right
        simp [step_at, invocation_step, List.countP_cons, past_inc]
      | at_exiting =>
        left
        cases hp : task.parent <;>
          simp [step_at, invocation_step, List.countP_cons, past_inc, hp, pr_info]
      | at_cputime =>
        left
        simp [step_at, invocation_step, List.countP_cons, past_inc, pr_info]
      | returned =>
        left
        simp [step_at, invocation_step, List.countP_cons, past_inc]
      | faulted =>
        left
        simp [step_at, invocation_step, List.countP_cons, past_inc]
    | succ i =>
      rcases ih i s with ⟨h1, h2⟩ | ⟨h1, h2⟩
      · left
        simp only [step_at, List.countP_cons, h1, h2, and_self]
      · right
        refine ⟨by simp only [step_at, h1], ?_⟩
        simp only [step_at, List.countP_cons, h2]
        omega

lemma step_at_length (h : host) :
    ∀ (ts : List invocation) (i : Nat) (s : kstate), (step_at h i ts s).1.length = ts.length := by
  intro ts
  induction ts with
  | nil => intro i s; cases i <;> simp [step_at]
  | cons t ts ih =>
    intro i s
    cases i with
    | zero => simp [step_at]
    | succ i => simp [step_at, ih i s]

lemma run_schedule_count (h : host) (c0 : Int) :
    ∀ (sched : List Nat) (c : List invocation × kstate),
      c.2.exit_count = wrap32 (c0 + (c.1.countP past_inc : Int)) →
      (run_schedule h sched c).2.exit_count
          = wrap32 (c0 + ((run_schedule h sched c).1.countP past_inc : Int))
        ∧ (run_schedule h sched c).1.length = c.1.length := by
  intro sched
  induction sched with
  | nil => intro c hc; exact ⟨hc, rfl⟩
  | cons i sched ih =>
    intro c hc
    rw [run_schedule]
    have hstep : (step_at h i c.1 c.2).2.exit_count
        = wrap32 (c0 + ((step_at h i c.1 c.2).1.countP past_inc : Int)) := by
      rcases step_at_effect h c.1 i c.2 with ⟨h1, h2⟩ | ⟨h1, h2⟩
      · rw [h1, h2, hc]
      · rw [h1, h2, hc, atomic_inc, wrap32_add_left]
        congr 1
        push_cast
        ring
    obtain ⟨r1, r2⟩ := ih _ hstep
    exact ⟨r1, by rw [r2, step_at_length]⟩

lemma countP_all_returned (ts : List invocation) (hall : all_returned ts) :
    ts.countP past_inc = ts.length := by
  rw [List.countP_eq_length]
  intro t ht
  simp [past_inc, hall t ht]

lemma countP_started (tasks : List task_struct) : (started tasks).countP past_inc = 0 := by
  rw [List.countP_eq_zero]
  intro t ht
  obtain ⟨task, _, rfl⟩ := List.mem_map.mp ht
  simp [past_inc]

lemma run_schedule_final_count (h : host) (tasks : List task_struct) (sched : List Nat)
    (s : kstate) (h0 : s.exit_count = 0)
    (hall : all_returned (run_schedule h sched (started tasks, s)).1) :
    (run_schedule h sched (started tasks, s)).2.exit_count
      = signed32_of_count tasks.length := by
  have hinv : (started tasks, s).2.exit_count
      = wrap32 (0 + (((started tasks, s).1.countP past_inc : Nat) : Int)) := by
    simp only [countP_started, h0]
    decide
  obtain ⟨r1, r2⟩ := run_schedule_count h 0 sched (started tasks, s) hinv
  rw [r1, countP_all_returned _ hall, r2]
  simp only [started, List.length_map]
  exact wrap32_count _

lemma run_schedule_append (h : host) :
    ∀ (a b : List Nat) (c : List invocation × kstate),
      run_schedule h (a ++ b) c = run_schedule h b (run_schedule h a c) := by
  intro a
  induction a with
  | nil => intro b c; rfl
  | cons i a ih => intro b c; exact ih b _

lemma run_schedule_shift (h : host) (t : invocation) :
    ∀ (sched : List Nat) (ts : List invocation) (s : kstate),
      run_schedule h (sched.map (fun i => i + 1)) (t :: ts, s)
        = (t :: (run_schedule h sched (ts, s)).1, (run_schedule h sched (ts, s)).2) := by
  intro sched
  induction sched with
  | nil => intro ts s; rfl
  | cons i sched ih =>
    intro ts s
    simp only [List.map_cons, run_schedule, step_at]
    exact ih _ _

lemma run_schedule_head (h : host) (task par : task_struct) (hp : task.parent = some par)
    (ts : List invocation) (s : kstate) :
    (run_schedule h [0, 0, 0] ({ task := task, pc := handler_pc.at_inc } :: ts, s)).1
      = { task := task, pc := handler_pc.returned } :: ts := by
  simp [run_schedule, step_at, invocation_step, hp]

lemma one_by_one_completes (h : host) :
    ∀ (tasks : List task_struct) (s : kstate), (∀ t ∈ tasks, t.parent ≠ none) →
      all_returned (run_schedule h (one_by_one tasks.length) (started tasks, s)).1 := by
  intro tasks
  induction tasks with
  | nil =>
    intro s _ t ht
    simp [one_by_one, run_schedule, started] at ht
  | cons task tasks ih =>
    intro s hp
    obtain ⟨par, hpar⟩ := Option.ne_none_iff_exists'.mp (hp task (List.mem_cons_self _ _))
    have hrest : ∀ t ∈ tasks, t.parent ≠ none := fun t ht => hp t (List.mem_cons_of_mem _ ht)
    have hhead := run_schedule_head h task par hpar (started tasks) s
    have hpair : run_schedule h [0, 0, 0]
          ({ task := task, pc := handler_pc.at_inc } :: started tasks, s)
        = ({ task := task, pc := handler_pc.returned } :: started tasks,
            (run_schedule h [0, 0, 0]
              ({ task := task, pc := handler_pc.at_inc } :: started tasks, s)).2) :=
      Prod.ext hhead rfl
    have hstart : started (task :: tasks)
        = { task := task, pc := handler_pc.at_inc } :: started tasks := rfl
    rw [List.length_cons, one_by_one, run_schedule_append, hstart, hpair, run_schedule_shift]
    intro t ht
    rcases List.mem_cons.mp ht with rfl | ht
    · rfl
    · exact ih _ hrest t ht

/-! ## The claims -/

/-- C1, amended: for every host, probe, register context and state whose current
process descriptor has a parent descriptor, `handler_pre_exit` returns 0, the
status "continue original execution". -/
theorem handler_pre_exit_returns_zero (h : host) (p : kprobe) (regs : pt_regs) (s : kstate)
    (hp : s.current.parent ≠ none) :
    (handler_pre_exit h p regs s).2 = outcome.returned 0 := by
  obtain ⟨par, hpar⟩ := Option.ne_none_iff_exists'.mp hp
  exact handler_returns h p regs s par hpar

/-- C1, amended, at the descriptor `worker`. -/
theorem handler_pre_exit_returns_zero_witness :
    (module_image worker no_regs).current.parent ≠ none
      ∧ (handler_pre_exit (deaf_host 7) (module_image worker no_regs).kp_exit no_regs
          (module_image worker no_regs)).2 = outcome.returned 0 :=
  ⟨Option.some_ne_none orphan,
    handler_pre_exit_returns_zero (deaf_host 7) _ no_regs _ (Option.some_ne_none orphan)⟩

/-- C1 as stated fails: on a descriptor with no parent descriptor the handler
faults on `task->parent->pid` and returns no status. -/
theorem handler_pre_exit_null_parent_oops :
    (handler_pre_exit (plain_host 7) (module_image orphan no_regs).kp_exit no_regs
        (module_image orphan no_regs)).2 = outcome.oops
      ∧ (handler_pre_exit (plain_host 7) (module_image orphan no_regs).kp_exit no_regs
        (module_image orphan no_regs)).2 ≠ outcome.returned 0 := by
  constructor <;> decide

/-- C8, amended: for every invocation and whatever the host does with the log
records, the counter after the invocation is the counter before it incremented as a
32-bit `int` (the counter before plus one unless that was the largest `int`); the
increment comes first, so it has also happened, with nothing logged, when the
invocation faults on a null parent pointer; when the parent pointer is non-null the
returned status is 0. -/
theorem handler_pre_exit_counts_first (h : host) (p : kprobe) (regs : pt_regs) (s : kstate) :
    (handler_pre_exit h p regs s).1.exit_count = wrap32 (s.exit_count + 1)
      ∧ (in_int_range s.exit_count → s.exit_count ≠ 2147483647 →
          (handler_pre_exit h p regs s).1.exit_count = s.exit_count + 1)
      ∧ (s.current.parent ≠ none → (handler_pre_exit h p regs s).2 = outcome.returned 0)
      ∧ (s.current.parent = none →
          (handler_pre_exit h p regs s).2 = outcome.oops
            ∧ (handler_pre_exit h p regs s).1.log = s.log) := by
  refine ⟨handler_exit_count h p regs s, ?_, ?_, ?_⟩
  · intro hr hmax
    rw [handler_exit_count, atomic_inc_succ _ hr hmax]
  · intro hp
    obtain ⟨par, hpar⟩ := Option.ne_none_iff_exists'.mp hp
    exact handler_returns h p regs s par hpar
  · intro hp
    rw [handler_oops h p regs s hp]
    exact ⟨rfl, rfl⟩

/-- C8, amended, on a host that drops every record, counter 0, descriptor `worker`. -/
theorem handler_pre_exit_counts_first_witness :
    in_int_range (module_image worker no_regs).exit_count
      ∧ (module_image worker no_regs).exit_count ≠ 2147483647
      ∧ (module_image worker no_regs).current.parent ≠ none
      ∧ (handler_pre_exit (deaf_host 7) (module_image worker no_regs).kp_exit no_regs
          (module_image worker no_regs)).1.exit_count = 0 + 1
      ∧ (handler_pre_exit (deaf_host 7) (module_image worker no_regs).kp_exit no_regs
          (module_image worker no_regs)).2 = outcome.returned 0 :=
  ⟨by decide, by decide, Option.some_ne_none orphan,
    (handler_pre_exit_counts_first (deaf_host 7) _ no_regs
      (module_image worker no_regs)).2.1 (by decide) (by decide),
    (handler_pre_exit_counts_first (deaf_host 7) _ no_regs
      (module_image worker no_regs)).2.2.1 (Option.some_ne_none orphan)⟩

/-- C8 as stated fails: with the counter at 2147483647 the counter after the
invocation is -2147483648, not the counter before plus one; and on a descriptor with
no parent descriptor the invocation faults after the increment and returns no
status. -/
theorem handler_pre_exit_wraps_at_int_max :
    saturated.exit_count = 2147483647
      ∧ (handler_pre_exit (deaf_host 7) saturated.kp_exit no_regs saturated).1.exit_count
          = -2147483648
      ∧ (handler_pre_exit (deaf_host 7) saturated.kp_exit no_regs saturated).1.exit_count
          ≠ saturated.exit_count + 1
      ∧ (handler_pre_exit (deaf_host 7) (module_image orphan no_regs).kp_exit no_regs
          (module_image orphan no_regs)).2 ≠ outcome.returned 0
      ∧ (handler_pre_exit (deaf_host 7) (module_image orphan no_regs).kp_exit no_regs
          (module_image orphan no_regs)).1.exit_count = 1 := by
  refine ⟨?_, ?_, ?_, ?_, ?_⟩ <;> decide

/-- C9: an invocation of `handler_pre_exit` leaves the current process
descriptor, the register context, the kprobe `kp_exit` and its registration state
as they were, for every host; on a host that stores every record the log after the
invocation is the log before it followed by the new records. -/
theorem handler_pre_exit_frame (h : host) (p : kprobe) (regs : pt_regs) (s : kstate) :
    (handler_pre_exit h p regs s).1.current = s.current
      ∧ (handler_pre_exit h p regs s).1.regs = s.regs
      ∧ (handler_pre_exit h p regs s).1.kp_exit = s.kp_exit
      ∧ (handler_pre_exit h p regs s).1.attached = s.attached
      ∧ (lossless h → ∃ added, (handler_pre_exit h p regs s).1.log = s.log ++ added) := by
  obtain ⟨h1, h2, h3, h4⟩ := handler_frame h p regs s
  refine ⟨h1, h2, h3, h4, ?_⟩
  intro hl
  cases hp : s.current.parent with
  | none =>
    refine ⟨[], ?_⟩
    rw [handler_oops h p regs s hp]
    simp
  | some par =>
    refine ⟨[info (exiting_line s.current.pid s.current.comm par.pid),
      info (cputime_line s.current.utime s.current.stime)], ?_⟩
    rw [handler_log h p regs s par hp, hl, hl]
    simp

/-- C9 on the active system of the scenario. -/
theorem handler_pre_exit_frame_witness :
    lossless (plain_host 7)
      ∧ (handler_pre_exit (plain_host 7) active_image.kp_exit no_regs active_image).1.kp_exit
          = { symbol_name := "do_exit", addr := some 7,
              pre_handler := some kprobe_pre_handler_t.handler_pre_exit }
      ∧ ∃ added, (handler_pre_exit (plain_host 7) active_image.kp_exit no_regs
          active_image).1.log = active_image.log ++ added :=
  ⟨lossless_plain_host 7,
    (handler_pre_exit_frame (plain_host 7) active_image.kp_exit no_regs active_image).2.2.1,
    (handler_pre_exit_frame (plain_host 7) active_image.kp_exit no_regs active_image).2.2.2.2
      (lossless_plain_host 7)⟩

/-- C10: after N handler invocations from counter 0 the "Total process exits
monitored" line written by `process_monitor_exit` carries, in signed decimal, N
reduced modulo 2^32 and read as a signed 32-bit integer; that value equals N exactly
when N < 2^31, in which case the line shows the decimal digits of N; for N = 2^31 the
line reads "-2147483648", and the counter decreases at that step. -/
theorem exit_count_reported_signed32 (h : host) (evs : List termination) (s : kstate)
    (hl : lossless h) (hp : parents_present evs) (h0 : s.exit_count = 0) :
    (invoke_handler h evs s).1.exit_count = signed32_of_count evs.length
      ∧ (process_monitor_exit h (invoke_handler h evs s).1).log
          = (invoke_handler h evs s).1.log ++
              [ { level := loglevel.KERN_INFO,
                  text := "PROCESS_MONITOR: ========================================\n" },
                { level := loglevel.KERN_INFO, text := "PROCESS_MONITOR: Module unloaded\n" },
                { level := loglevel.KERN_INFO,
                  text := "PROCESS_MONITOR: Total process exits monitored: "
                    ++ toString (signed32_of_count evs.length) ++ "\n" },
                { level := loglevel.KERN_INFO,
                  text := "PROCESS_MONITOR: ========================================\n" } ]
      ∧ (signed32_of_count evs.length = (evs.length : Int) ↔ evs.length < 2147483648)
      ∧ (evs.length < 2147483648 →
          (process_monitor_exit h (invoke_handler h evs s).1).log
            = (invoke_handler h evs s).1.log ++
                [ { level := loglevel.KERN_INFO,
                    text := "PROCESS_MONITOR: ========================================\n" },
                  { level := loglevel.KERN_INFO,
                    text := "PROCESS_MONITOR: Module unloaded\n" },
                  { level := loglevel.KERN_INFO,
                    text := "PROCESS_MONITOR: Total process exits monitored: "
                      ++ Nat.repr evs.length ++ "\n" },
                  { level := loglevel.KERN_INFO,
                    text := "PROCESS_MONITOR: ========================================\n" } ])
      ∧ (evs.length = 2147483648 → signed32_of_count evs.length = -2147483648)
      ∧ (evs.length = 2147483648 →
          (process_monitor_exit h (invoke_handler h evs s).1).log
            = (invoke_handler h evs s).1.log ++
                [ { level := loglevel.KERN_INFO,
                    text := "PROCESS_MONITOR: ========================================\n" },
                  { level := loglevel.KERN_INFO,
                    text := "PROCESS_MONITOR: Module unloaded\n" },
                  { level := loglevel.KERN_INFO,
                    text := "PROCESS_MONITOR: Total process exits monitored: -2147483648\n" },
                  { level := loglevel.KERN_INFO,
                    text := "PROCESS_MONITOR: ========================================\n" } ])
      ∧ atomic_inc 2147483647 = -2147483648 := by
  have hc := invoke_handler_count h evs s hp h0
  have hlog : ∀ text : String, total_line (signed32_of_count evs.length) = text →
      (process_monitor_exit h (invoke_handler h evs s).1).log
        = (invoke_handler h evs s).1.log ++
            [ { level := loglevel.KERN_INFO,
                text := "PROCESS_MONITOR: ========================================\n" },
              { level := loglevel.KERN_INFO, text := "PROCESS_MONITOR: Module unloaded\n" },
              { level := loglevel.KERN_INFO, text := text },
              { level := loglevel.KERN_INFO,
                text := "PROCESS_MONITOR: ========================================\n" } ] := by
    intro text ht
    rw [exit_log_lossless h hl, hc, ht]
    simp only [info, banner]
  refine ⟨hc, hlog _ (total_line_text _), signed32_of_count_eq_iff _, ?_, ?_, ?_, by decide⟩
  · intro hN
    apply hlog
    rw [(signed32_of_count_eq_iff evs.length).mpr hN]
    exact total_line_nat _
  · intro hN
    rw [hN]
    decide
  · intro hN
    apply hlog
    rw [hN]
    decide

/-- C10 for three terminations of `worker`, where the line reads "3", and for 2^31
of them, where it reads "-2147483648". -/
theorem exit_count_reported_signed32_witness :
    lossless (plain_host 7)
      ∧ parents_present [worker_exit, worker_exit, worker_exit]
      ∧ active_image.exit_count = 0
      ∧ (invoke_handler (plain_host 7) [worker_exit, worker_exit, worker_exit]
          active_image).1.exit_count = 3
      ∧ (process_monitor_exit (plain_host 7)
          (invoke_handler (plain_host 7) [worker_exit, worker_exit, worker_exit]
            active_image).1).log
        = (invoke_handler (plain_host 7) [worker_exit, worker_exit, worker_exit]
            active_image).1.log ++
            [ { level := loglevel.KERN_INFO,
                text := "PROCESS_MONITOR: ========================================\n" },
              { level := loglevel.KERN_INFO, text := "PROCESS_MONITOR: Module unloaded\n" },
              { level := loglevel.KERN_INFO,
                text := "PROCESS_MONITOR: Total process exits monitored: 3\n" },
              { level := loglevel.KERN_INFO,
                text := "PROCESS_MONITOR: ========================================\n" } ]
      ∧ (List.replicate 2147483648 worker_exit).length = 2147483648
      ∧ (process_monitor_exit (plain_host 7)
          (invoke_handler (plain_host 7) (List.replicate 2147483648 worker_exit)
            active_image).1).log
        = (invoke_handler (plain_host 7) (List.replicate 2147483648 worker_exit)
            active_image).1.log ++
            [ { level := loglevel.KERN_INFO,
                text := "PROCESS_MONITOR: ========================================\n" },
              { level := loglevel.KERN_INFO, text := "PROCESS_MONITOR: Module unloaded\n" },
              { level := loglevel.KERN_INFO,
                text := "PROCESS_MONITOR: Total process exits monitored: -2147483648\n" },
              { level := loglevel.KERN_INFO,
                text := "PROCESS_MONITOR: ========================================\n" } ] :=
  ⟨lossless_plain_host 7,
    parents_present_replicate 3 worker_exit (Option.some_ne_none orphan),
    rfl,
    (exit_count_reported_signed32 (plain_host 7) [worker_exit, worker_exit, worker_exit]
      active_image (lossless_plain_host 7)
      (parents_present_replicate 3 worker_exit (Option.some_ne_none orphan)) rfl).1,
    (exit_count_reported_signed32 (plain_host 7) [worker_exit, worker_exit, worker_exit]
      active_image (lossless_plain_host 7)
      (parents_present_replicate 3 worker_exit (Option.some_ne_none orphan)) rfl).2.2.2.1
      (by decide),
    List.length_replicate _ _,
    (exit_count_reported_signed32 (plain_host 7) (List.replicate 2147483648 worker_exit)
      active_image (lossless_plain_host 7)
      (parents_present_replicate 2147483648 worker_exit (Option.some_ne_none orphan))
      rfl).2.2.2.2.2.1 (List.length_replicate _ _)⟩

/-- C2, amended: for every N < 2^31, from the initial state, if
`process_monitor_init` succeeds, `handler_pre_exit` is then invoked N times (each
time on a descriptor with a parent) and `process_monitor_exit` is then run, the
value in the "Total process exits monitored" line is N. -/
theorem total_exits_reported (h : host) (cur : task_struct) (regs : pt_regs) (a : Nat)
    (evs : List termination) (hl : lossless h)
    (hres : h.resolve "do_exit" = attach_answer.resolved a)
    (hp : parents_present evs) (hN : evs.length < 2147483648) :
    (process_monitor_init h (module_image cur regs)).2 = 0
      ∧ (invoke_handler h evs (process_monitor_init h (module_image cur regs)).1).2
          = outcome.returned 0
      ∧ (process_monitor_exit h
          (invoke_handler h evs (process_monitor_init h (module_image cur regs)).1).1).log
        = (invoke_handler h evs (process_monitor_init h (module_image cur regs)).1).1.log ++
            [info banner, info "PROCESS_MONITOR: Module unloaded\n",
              info (total_line (evs.length : Int)), info banner] := by
  obtain ⟨hret, _, _, hcount, _, _⟩ := init_resolved h (module_image cur regs) a rfl hres
  have h0 : (process_monitor_init h (module_image cur regs)).1.exit_count = 0 := by
    rw [hcount]; rfl
  have hr : in_int_range (process_monitor_init h (module_image cur regs)).1.exit_count := by
    rw [h0]; decide
  refine ⟨hret, (invoke_handler_spec h evs _ hp hr).1, ?_⟩
  rw [exit_log_lossless h hl, invoke_handler_count h evs _ hp h0,
    (signed32_of_count_eq_iff evs.length).mpr hN]

/-- C2, amended, for two terminations of `worker`. -/
theorem total_exits_reported_witness :
    lossless (plain_host 7)
      ∧ (plain_host 7).resolve "do_exit" = attach_answer.resolved 7
      ∧ parents_present [worker_exit, worker_exit]
      ∧ [worker_exit, worker_exit].length < 2147483648
      ∧ (process_monitor_exit (plain_host 7)
          (invoke_handler (plain_host 7) [worker_exit, worker_exit] active_image).1).log
        = (invoke_handler (plain_host 7) [worker_exit, worker_exit] active_image).1.log ++
            [info banner, info "PROCESS_MONITOR: Module unloaded\n",
              info "PROCESS_MONITOR: Total process exits monitored: 2\n", info banner] :=
  ⟨lossless_plain_host 7, rfl,
    parents_present_replicate 2 worker_exit (Option.some_ne_none orphan), by decide,
    (total_exits_reported (plain_host 7) worker no_regs 7 [worker_exit, worker_exit]
      (lossless_plain_host 7) rfl
      (parents_present_replicate 2 worker_exit (Option.some_ne_none orphan))
      (by decide)).2.2⟩

/-- C2 as stated fails: after 2^31 invocations the line reports -2147483648, not
2147483648. -/
theorem total_exits_wrap_at_2_pow_31 :
    (List.replicate 2147483648 worker_exit).length = 2147483648
      ∧ (process_monitor_exit (plain_host 7)
          (invoke_handler (plain_host 7) (List.replicate 2147483648 worker_exit)
            active_image).1).log
        = (invoke_handler (plain_host 7) (List.replicate 2147483648 worker_exit)
            active_image).1.log ++
            [info banner, info "PROCESS_MONITOR: Module unloaded\n",
              info "PROCESS_MONITOR: Total process exits monitored: -2147483648\n",
              info banner]
      ∧ total_line (-2147483648) ≠ total_line 2147483648 := by
  refine ⟨List.length_replicate _ _, ?_, by decide⟩
  rw [exit_log_lossless _ (lossless_plain_host 7),
    invoke_handler_count (plain_host 7) _ active_image
      (parents_present_replicate _ worker_exit (Option.some_ne_none orphan)) rfl,
    List.length_replicate]
  rfl

/-- C4: for every host registration result ret < 0, `process_monitor_init` run on
the freshly loaded module returns ret, logs exactly one error report (after its three
banner lines, on a host that stores every record), leaves the registration
`Unregistered` with no resolved address (`kp_exit` holds its symbol name and the
callback pointer stored at line 53 before the attempt, nothing from the host), leaves
`exit_count` at 0, and whatever terminations follow, nothing more is logged and the
counter stays 0. -/
theorem init_failure_reports_once (h : host) (cur : task_struct) (regs : pt_regs)
    (ret : Int) (hneg : ret < 0) (hres : h.resolve "do_exit" = attach_answer.refused ret) :
    (process_monitor_init h (module_image cur regs)).2 = ret
      ∧ (lossless h →
          (process_monitor_init h (module_image cur regs)).1.log
              = [info banner, info "PROCESS_MONITOR: Module loading...\n",
                  info ("PROCESS_MONITOR: Kernel version: " ++ fmt_s h.UTS_RELEASE ++ "\n"),
                  err (failed_line ret)]
            ∧ (process_monitor_init h (module_image cur regs)).1.log.filter
                (fun r => decide (r.level = loglevel.KERN_ERR)) = [err (failed_line ret)])
      ∧ Unregistered (process_monitor_init h (module_image cur regs)).1
      ∧ (process_monitor_init h (module_image cur regs)).1.kp_exit
          = { symbol_name := "do_exit", addr := none,
              pre_handler := some kprobe_pre_handler_t.handler_pre_exit }
      ∧ (process_monitor_init h (module_image cur regs)).1.exit_count = 0
      ∧ ∀ evs : List termination,
          (terminations h evs (process_monitor_init h (module_image cur regs)).1).1.log
              = (process_monitor_init h (module_image cur regs)).1.log
            ∧ (terminations h evs
                (process_monitor_init h (module_image cur regs)).1).1.exit_count = 0
            ∧ Unregistered
                (terminations h evs (process_monitor_init h (module_image cur regs)).1).1 := by
  have hinit := init_refused h (module_image cur regs) ret rfl hres hneg
  refine ⟨by rw [hinit], ?_, by rw [hinit]; rfl, by rw [hinit]; rfl, by rw [hinit]; rfl, ?_⟩
  · intro hl
    rw [hinit]
    simp only [hl _ _]
    constructor
    · rfl
    · simp [module_image, info, err]
  · intro evs
    have hun : (process_monitor_init h (module_image cur regs)).1.attached = false := by
      rw [hinit]; rfl
    obtain ⟨_, h2, h3, _, h5⟩ := terminations_unregistered h evs _ hun
    refine ⟨h2, ?_, h5⟩
    rw [h3, hinit]
    rfl

/-- C4 on a host that refuses with status -2, followed by one termination. -/
theorem init_failure_reports_once_witness :
    (-2 : Int) < 0
      ∧ (refusing_host (-2)).resolve "do_exit" = attach_answer.refused (-2)
      ∧ lossless (refusing_host (-2))
      ∧ (process_monitor_init (refusing_host (-2)) (module_image worker no_regs)).2 = -2
      ∧ (terminations (refusing_host (-2)) [worker_exit]
          (process_monitor_init (refusing_host (-2)) (module_image worker no_regs)).1).1.log
        = [info banner, info "PROCESS_MONITOR: Module loading...\n",
            info "PROCESS_MONITOR: Kernel version: 6.1.0\n",
            err "PROCESS_MONITOR: Failed to register exit kprobe: -2\n"] :=
  ⟨by decide, rfl, lossless_refusing_host _,
    (init_failure_reports_once (refusing_host (-2)) worker no_regs (-2) (by decide) rfl).1,
    ((init_failure_reports_once (refusing_host (-2)) worker no_regs (-2) (by decide)
        rfl).2.2.2.2.2 [worker_exit]).1.trans
      ((init_failure_reports_once (refusing_host (-2)) worker no_regs (-2) (by decide)
        rfl).2.1 (lossless_refusing_host _)).1⟩

/-- C5: in state `Active`, on a host that refuses a second registration of a live
kprobe with a negative status, `process_monitor_init` fails with that status, and the
kprobe (symbol name, resolved address, installed callback), the `Active` state and
the counter are as they were before the attempt; unregistering leads to
`Unregistered`. -/
theorem double_registration_rejected (h : host) (s : kstate)
    (hc : h.conflict < 0) (ha : Active s) :
    register_kprobe h s = (h.conflict, s)
      ∧ (process_monitor_init h s).2 = h.conflict
      ∧ (process_monitor_init h s).2 < 0
      ∧ (process_monitor_init h s).1.kp_exit = s.kp_exit
      ∧ Active (process_monitor_init h s).1
      ∧ (process_monitor_init h s).1.exit_count = s.exit_count
      ∧ Unregistered (unregister_kprobe s) := by
  obtain ⟨hatt, hpre⟩ := ha
  have hinit := init_conflict h s hatt hc
  have hk : (process_monitor_init h s).1.kp_exit = s.kp_exit := by
    rw [hinit]
    simp only
    rw [← hpre]
  refine ⟨by simp [register_kprobe, hatt], by rw [hinit], by rw [hinit]; exact hc, hk,
    ⟨by rw [hinit]; exact hatt, by rw [hk]; exact hpre⟩, by rw [hinit], rfl⟩

/-- C5 on the active system of the scenario. -/
theorem double_registration_rejected_witness :
    (plain_host 7).conflict < 0
      ∧ Active active_image
      ∧ (process_monitor_init (plain_host 7) active_image).2 = -22
      ∧ (process_monitor_init (plain_host 7) active_image).1.kp_exit
          = { symbol_name := "do_exit", addr := some 7,
              pre_handler := some kprobe_pre_handler_t.handler_pre_exit } :=
  ⟨by decide, ⟨rfl, rfl⟩,
    (double_registration_rejected (plain_host 7) active_image (by decide) ⟨rfl, rfl⟩).2.1,
    (double_registration_rejected (plain_host 7) active_image (by decide)
      ⟨rfl, rfl⟩).2.2.2.1⟩

/-- C6: after a successful `process_monitor_init` the system is `Active` and
terminations reach the handler; running `process_monitor_exit` (after any
terminations) leaves it `Unregistered`, and every termination after the unregister
step, whether before or after the closing report is logged, logs nothing and leaves
`exit_count` as it was. -/
theorem no_observation_after_exit (h : host) (cur : task_struct) (regs : pt_regs) (a : Nat)
    (hres : h.resolve "do_exit" = attach_answer.resolved a)
    (before after : List termination) :
    (process_monitor_init h (module_image cur regs)).2 = 0
      ∧ Active (process_monitor_init h (module_image cur regs)).1
      ∧ terminations h before (process_monitor_init h (module_image cur regs)).1
          = invoke_handler h before (process_monitor_init h (module_image cur regs)).1
      ∧ Unregistered (process_monitor_exit h
          (terminations h before (process_monitor_init h (module_image cur regs)).1).1)
      ∧ (terminations h after (process_monitor_exit h
          (terminations h before (process_monitor_init h (module_image cur regs)).1).1)).1.log
        = (process_monitor_exit h
          (terminations h before (process_monitor_init h (module_image cur regs)).1).1).log
      ∧ (terminations h after (process_monitor_exit h
          (terminations h before
            (process_monitor_init h (module_image cur regs)).1).1)).1.exit_count
        = (terminations h before
            (process_monitor_init h (module_image cur regs)).1).1.exit_count
      ∧ (terminations h after (unregister_kprobe
          (terminations h before (process_monitor_init h (module_image cur regs)).1).1)).1.log
        = (terminations h before (process_monitor_init h (module_image cur regs)).1).1.log
      ∧ (terminations h after (unregister_kprobe
          (terminations h before
            (process_monitor_init h (module_image cur regs)).1).1)).1.exit_count
        = (terminations h before
            (process_monitor_init h (module_image cur regs)).1).1.exit_count := by
  obtain ⟨hret, hatt, hk, _, _, _⟩ := init_resolved h (module_image cur regs) a rfl hres
  have hact : Active (process_monitor_init h (module_image cur regs)).1 :=
    ⟨hatt, by rw [hk]⟩
  have hun : ∀ s : kstate, (process_monitor_exit h s).attached = false := by
    intro s; rw [exit_state]
  have hcnt : ∀ s : kstate, (process_monitor_exit h s).exit_count = s.exit_count := by
    intro s; rw [exit_state]
  obtain ⟨_, e2, e3, _, _⟩ := terminations_unregistered h after _
    (hun (terminations h before (process_monitor_init h (module_image cur regs)).1).1)
  obtain ⟨_, u2, u3, _, _⟩ := terminations_unregistered h after
    (unregister_kprobe
      (terminations h before (process_monitor_init h (module_image cur regs)).1).1) rfl
  exact ⟨hret, hact, terminations_active h before _ hact, hun _, e2, by rw [e3, hcnt],
    u2, u3⟩

/-- C6 on a host that resolves `do_exit` to 7: one termination is observed before
the unload, none after. -/
theorem no_observation_after_exit_witness :
    (plain_host 7).resolve "do_exit" = attach_answer.resolved 7
      ∧ (terminations (plain_host 7) [worker_exit] active_image).1.exit_count = 1
      ∧ (terminations (plain_host 7) [worker_exit] (process_monitor_exit (plain_host 7)
          (terminations (plain_host 7) [worker_exit] active_image).1)).1.exit_count = 1 :=
  ⟨rfl, by decide,
    (no_observation_after_exit (plain_host 7) worker no_regs 7 rfl [worker_exit]
      [worker_exit]).2.2.2.2.2.1.trans (by decide)⟩

/-- C7, amended: for every N < 2^31, every host and every interleaving of the
indivisible actions of N concurrent invocations of `handler_pre_exit` that runs all
of them to their return, the final value of `exit_count`, started at 0, is N; for
every N it is N reduced to a signed 32-bit integer.  The actions are those of the
handler: run alone, the three actions of one invocation leave the state
`handler_pre_exit` leaves. -/
theorem concurrent_exits_counted (h : host) (tasks : List task_struct) (sched : List Nat)
    (s : kstate) (h0 : s.exit_count = 0)
    (hall : all_returned (run_schedule h sched (started tasks, s)).1) :
    (run_schedule h sched (started tasks, s)).2.exit_count = signed32_of_count tasks.length
      ∧ (tasks.length < 2147483648 →
          (run_schedule h sched (started tasks, s)).2.exit_count = (tasks.length : Int))
      ∧ ∀ (p : kprobe) (regs : pt_regs) (s1 : kstate),
          (run_schedule h [0, 0, 0] (started [s1.current], s1)).2
            = (handler_pre_exit h p regs s1).1 := by
  have hc := run_schedule_final_count h tasks sched s h0 hall
  refine ⟨hc, ?_, fun p regs s1 => (run_schedule_alone h p regs s1).1⟩
  intro hN
  rw [hc, (signed32_of_count_eq_iff tasks.length).mpr hN]

/-- C7, amended, for two concurrent terminations of `worker` interleaved step by
step. -/
theorem concurrent_exits_counted_witness :
    active_image.exit_count = 0
      ∧ all_returned (run_schedule (plain_host 7) [0, 1, 1, 0, 1, 0]
          (started [worker, worker], active_image)).1
      ∧ [worker, worker].length < 2147483648
      ∧ (run_schedule (plain_host 7) [0, 1, 1, 0, 1, 0]
          (started [worker, worker], active_image)).2.exit_count = 2 :=
  ⟨rfl, by decide, by decide,
    (concurrent_exits_counted (plain_host 7) [worker, worker] [0, 1, 1, 0, 1, 0] active_image
      rfl (by decide)).2.1 (by decide)⟩

/-- C7 as stated fails: 2^31 concurrent invocations, run to their return one
after the other, leave `exit_count` at -2147483648, not 2147483648. -/
theorem concurrent_exits_wrap_at_2_pow_31 :
    (List.replicate 2147483648 worker).length = 2147483648
      ∧ all_returned (run_schedule (plain_host 7) (one_by_one 2147483648)
          (started (List.replicate 2147483648 worker), active_image)).1
      ∧ (run_schedule (plain_host 7) (one_by_one 2147483648)
          (started (List.replicate 2147483648 worker), active_image)).2.exit_count
        = -2147483648 := by
  have hall := one_by_one_completes (plain_host 7) (List.replicate 2147483648 worker)
    active_image (fun t ht => by
      rw [List.eq_of_mem_replicate ht]; exact Option.some_ne_none orphan)
  rw [List.length_replicate] at hall
  refine ⟨List.length_replicate _ _, hall, ?_⟩
  rw [run_schedule_final_count (plain_host 7) _ _ active_image rfl hall,
    List.length_replicate]
  decide

end ProcessMonitor
